import Mathlib

/-!
Verification of the NGN "business object" framework as shipped in the
repository: the base class file (src/unnamed/part_000, the `NGN.Base`
class that Login extends) and the login adapter
(src/lib/user/Login.js), embedded shallowly over a small model of
JavaScript runtime values.

Modelling conventions, matching the JavaScript source:
* Machine values are modelled by `JSVal`; property access on `undefined`
  or `null` raises a `TypeError`, modelled with `Except JSErr`.
* Event emission through the per-instance emitter is modelled as a trace
  of `NGNEvent` values (the `events` node module is an external
  collaborator; its listener bookkeeping is outside the claims).
* The source's property descriptors for `accesstoken`, `oauthprovider`
  and `oauth` pair a `value:` entry with `get`/`set` accessors; strict
  descriptor validation rejects such descriptors, but the embedding
  models the accessor semantics the author wrote, which is what every
  claim is about.
* `this.ID = ...` in `processHttpRequest` assigns to an accessor
  property that has no setter; in sloppy mode this is silently ignored,
  and the embedding models it as a no-op on the private `_id` slot.
-/

namespace NGNSpec

/-- A small model of JavaScript runtime values: `undefined`, `null`,
booleans, strings, plain objects (association lists of own enumerable
properties), and opaque function values carrying only a bookkeeping
tag (no function in the source under verification is ever invoked
through such a value). -/
inductive JSVal : Type where
  | undefined : JSVal
  | null : JSVal
  | bool : Bool → JSVal
  | str : String → JSVal
  | obj : List (String × JSVal) → JSVal
  | fn : String → JSVal

/-- Runtime errors raised by the embedded code: only `TypeError`
(property access or method call on `undefined`/`null`, or calling a
string method on a non-string) occurs in the modelled fragment. -/
inductive JSErr : Type where
  | typeError : String → JSErr

/-- An event delivered to the instance's private emitter: a name and a
metadata payload. -/
structure NGNEvent : Type where
  name : String
  payload : JSVal

/-- JavaScript truthiness for the modelled values. -/
def truthy : JSVal → Bool
  | .undefined => false
  | .null => false
  | .bool b => b
  | .str s => s ≠ ""
  | .obj _ => true
  | .fn _ => true

/-- The JavaScript short-circuit `a || b` on modelled values. -/
def jsOr (a b : JSVal) : JSVal :=
  if truthy a then a else b

/-- Loose equality against `null` (`x == null`): true exactly for
`null` and `undefined`. -/
def looseEqNull : JSVal → Bool
  | .null => true
  | .undefined => true
  | _ => false

/-- Loose equality of a modelled value against a string literal, as in
`this.oauthprovider == 'email'`: a string compares by contents; `null`,
`undefined`, booleans, objects and functions never loosely equal the
string literals used by the source. -/
def looseEqString : JSVal → String → Bool
  | .str s, t => s = t
  | _, _ => false

/-- Property read `v[k]`: throws `TypeError` on `undefined`/`null`,
returns the own property or `undefined` on objects, and `undefined`
on the remaining primitives (none of which carries the accessed keys). -/
def getProp : JSVal → String → Except JSErr JSVal
  | .undefined, k => .error (.typeError ("Cannot read property " ++ k ++ " of undefined"))
  | .null, k => .error (.typeError ("Cannot read property " ++ k ++ " of null"))
  | .obj fields, k => .ok ((fields.lookup k).getD .undefined)
  | .str _, _ => .ok .undefined
  | .bool _, _ => .ok .undefined
  | .fn _, _ => .ok .undefined

/-- Whitespace as trimmed by the JavaScript `trim()` (restricted to
the ASCII whitespace characters; no string in the repository or in the
claims carries the further Unicode space separators). -/
def jsIsSpace (c : Char) : Bool :=
  c = ' ' || c = '\t' || c = '\n' || c = '\r'

/-- Dropping leading and trailing whitespace from a character list. -/
def jsTrimChars (l : List Char) : List Char :=
  ((l.dropWhile jsIsSpace).reverse.dropWhile jsIsSpace).reverse

/-- ASCII lowercasing of one character, as `toLowerCase()` acts on the
characters appearing in the repository's strings. -/
def jsLowerChar (c : Char) : Char :=
  if 'A' ≤ c && c ≤ 'Z' then Char.ofNat (c.toNat + 32) else c

/-- The JavaScript string method `trim()`. -/
def jsTrim (s : String) : String :=
  String.mk (jsTrimChars s.data)

/-- The JavaScript string method `toLowerCase()`. -/
def jsToLower (s : String) : String :=
  String.mk (s.data.map jsLowerChar)

/-- The call `v.trim().toLowerCase()`: defined for strings, a
`TypeError` otherwise (`trim` is not a function on the other values). -/
def trimToLowerCall : JSVal → Except JSErr JSVal
  | .str s => .ok (.str (jsToLower (jsTrim s)))
  | _ => .error (.typeError "trim is not a function")

/-- The instance state of an `NGN.user.Login` object: the private data
slots installed by the constructor, together with the two property
names the source reads but never defines (`request` and `bus`), which
are `undefined` unless external code assigns them (JavaScript objects
are open). `_accesstoken` is the constructor's private slot (written by
`processHttpRequest`), while `_accessToken` is the differently-spelled
slot the `accesstoken` getter and setter actually use. -/
structure LoginState : Type where
  _request : JSVal
  _data : JSVal
  _id : JSVal
  _accesstoken : JSVal
  _accessToken : JSVal
  _modified : Bool
  _oauthprovider : JSVal
  request : JSVal
  bus : JSVal

/-- The `Login` constructor body after the base-class chain call:
`config = config || \x7b\x7d`, then the private slots are installed with
`_request` set to `config.request || \x7b\x7d` and everything else unset.
The properties `request` and `bus` are never defined. -/
def loginCtor (config : JSVal) : Except JSErr LoginState := do
  let cfg := jsOr config (.obj [])
  let r ← getProp cfg "request"
  .ok { _request := jsOr r (.obj [])
        _data := .null
        _id := .null
        _accesstoken := .null
        _accessToken := .undefined
        _modified := false
        _oauthprovider := .undefined
        request := .undefined
        bus := .undefined }

/-- The `ID` getter: `return this._id`. -/
def idGet (st : LoginState) : JSVal :=
  st._id

/-- The `oauthprovider` getter:
`return this.request.user.type.trim().toLowerCase()`. Note that it
reads `this.request`, not the `_request` slot the constructor fills. -/
def oauthproviderGet (st : LoginState) : Except JSErr JSVal := do
  let u ← getProp st.request "user"
  let t ← getProp u "type"
  trimToLowerCall t

/-- The `switch (this.oauthprovider)` table of the `oauth` getter,
as a function of the switched value: the nine string cases map to
their short codes, everything else falls to `default: return null`
(a `switch` compares with strict equality, so only strings match the
string cases). -/
def oauthSwitch (p : JSVal) : JSVal :=
  match p with
  | .str s =>
      if s = "github" then .str "gh"
      else if s = "facebook" then .str "fb"
      else if s = "linkedin" then .str "li"
      else if s = "twitter" then .str "tw"
      else if s = "google" then .str "gg"
      else if s = "openid" then .str "oi"
      else if s = "yahoo" then .str "yh"
      else if s = "dropbox" then .str "db"
      else if s = "email" then .str "eml"
      else .null
  | _ => .null

/-- The `oauth` getter: evaluates `this.oauthprovider` (propagating any
error) and maps it through the switch table. -/
def oauthGet (st : LoginState) : Except JSErr JSVal := do
  let p ← oauthproviderGet st
  .ok (oauthSwitch p)

/-- The nine provider names handled by the `oauth` switch. -/
def knownProviders : List String :=
  ["github", "facebook", "linkedin", "twitter", "google", "openid",
   "yahoo", "dropbox", "email"]

/-- The call `this.bus.emit(name, md)`: reads `emit` off `this.bus`
(throwing a `TypeError` when `bus` is `undefined`, which it is in every
state the repository's code produces) and, when that yields a callable,
records the delivered event. -/
def busEmit (st : LoginState) (name : String) (md : JSVal) : Except JSErr (List NGNEvent) := do
  let f ← getProp st.bus "emit"
  match f with
  | .fn _ => .ok [⟨name, md⟩]
  | _ => .error (.typeError "emit is not a function")

/-- The metadata object built for the unreachable `InvalidAttribute`
branch of the `accesstoken` getter. -/
def invalidAttributePayload : JSVal :=
  .obj [("type", .str "InvalidAttribute"),
        ("message", .str "The attribute does not exist."),
        ("detail", .str "The ID attribute is only available after a get() or authenticate() or some other lookup method.")]

/-- The `accesstoken` getter. The first guard is the source's
`if (not this.oauthprovider == null)` (with `not` binding before `==`),
so it evaluates the provider getter, negates its truthiness, and
loosely compares the resulting boolean with `null` — which is never
true. The `email` branch emits through `this.bus` and returns `null`;
the final branch returns `this._accessToken || null`. -/
def accesstokenGet (st : LoginState) : Except JSErr (JSVal × List NGNEvent) := do
  let p1 ← oauthproviderGet st
  if looseEqNull (.bool (! truthy p1)) then do
    let evs ← busEmit st "error" invalidAttributePayload
    .ok (.undefined, evs)
  else do
    let p2 ← oauthproviderGet st
    if looseEqString p2 "email" then do
      let evs ← busEmit st "warning" (.str "Access Tokens are only available for OAuth and OAuth 2 logins.")
      .ok (.null, evs)
    else
      .ok (jsOr st._accessToken .null, [])

/-- The `accesstoken` setter: the difference check only guards a TODO
comment; the value is stored into `this._accessToken` unconditionally. -/
def accesstokenSet (st : LoginState) (value : JSVal) : LoginState :=
  { st with _accessToken := value }

/-- `Login.prototype.processHttpRequest(req)`: reads `req.user`, whose
`id` is assigned to the setter-less `ID` accessor (silently dropped in
sloppy mode), caches `req.user` in `_data` and `req.user.accessToken`
in `_accesstoken`, and stores an anonymous provider-scanning function
value — not its result — into `_oauthprovider`. -/
def processHttpRequest (st : LoginState) (req : JSVal) : Except JSErr LoginState := do
  let u ← getProp req "user"
  let _idVal ← getProp u "id"
  let tok ← getProp u "accessToken"
  .ok { st with _data := u, _accesstoken := tok, _oauthprovider := .fn "providerScan" }

/-- `Login.prototype.authenticate(req)`:
`req = req || this._request || null`; when `req == null` it emits
through the nonexistent `this.bus` and returns, otherwise it returns
with no effect (the body past the guard is a TODO). -/
def authenticate (st : LoginState) (reqArg : JSVal) : Except JSErr (LoginState × List NGNEvent) :=
  let req := jsOr reqArg (jsOr st._request .null)
  if looseEqNull req then do
    let evs ← busEmit st "error" (.str "No request stream available.")
    .ok (st, evs)
  else
    .ok (st, [])

/-! ### The base class (src/unnamed/part_000): event reporting -/

/-- An observable side effect of the base class's reporting methods:
either a delivery on the instance's own emitter, or a forward to the
process-wide mechanic monitor (`process.mechanic.send`). -/
inductive ReportAction : Type where
  | localEmit : String → JSVal → ReportAction
  | mechanicSend : String → JSVal → ReportAction

/-- The base class method `emit(eventName, metadata)`:
`this._emitter.emit(eventName, metadata || null)` — a single delivery
on the instance's own channel, with the metadata defaulted to `null`. -/
def ngnEmit (eventName : String) (metadata : JSVal) : List ReportAction :=
  [.localEmit eventName (jsOr metadata .null)]

/-- The base class method `fireEvent(eventName, metadata)`: performs
`this.emit(eventName, metadata)`, then — when the process object owns a
`mechanic` property — `process.mechanic.send(eventName, metadata)`. -/
def fireEvent (mechanicAttached : Bool) (eventName : String) (metadata : JSVal) :
    List ReportAction :=
  ngnEmit eventName metadata ++
    (if mechanicAttached then [.mechanicSend eventName metadata] else [])

/-- The `modified` setter of Login: it ignores the assigned value and
runs `this.emit('error', ...)` through the base class, touching no
state slot. The result pairs the (unchanged) state with the emitter
trace. -/
def invalidSetPayload : JSVal :=
  .obj [("type", .str "InvalidSet"),
        ("message", .str "This attribute cannot be set."),
        ("detail", .str "The modified attribute cannot be set directly.")]

/-- The `modified` setter body: `this.emit('error', invalidSetPayload)`
and nothing else; the assigned value is not even named by the source
(`set: function()`). -/
def modifiedSet (st : LoginState) (_value : JSVal) : LoginState × List ReportAction :=
  (st, ngnEmit "error" invalidSetPayload)

/-- The `modified` getter: `return this._modified`. -/
def modifiedGet (st : LoginState) : Bool :=
  st._modified

/-- Modelled from the spec: `NGN.emptyFn`, the no-op handler the base
class substitutes when `on` is called without a callback
(`callback || NGN.emptyFn`). The `NGN` bootstrap module that defines it
is not under src/; the spec states that a no-op handler is installed
when the caller supplies none. -/
def emptyFn : JSVal :=
  .fn "NGN.emptyFn"

/-- The base class method `on(eventName, callback)`:
`this._emitter.on(eventName, callback || NGN.emptyFn)` — appends one
registration to the emitter's listener list, substituting the no-op
when the callback is falsy (in particular `undefined`). -/
def ngnOn (regs : List (String × JSVal)) (eventName : String) (callback : JSVal) :
    List (String × JSVal) :=
  regs ++ [(eventName, jsOr callback emptyFn)]

/-- The handler lookup `this['on' + evt[i].trim()]`: the instance
method of that exact name when one exists (modelled through the
predicate `hasMethod`), `undefined` otherwise. -/
def lookupMethod (hasMethod : String → Bool) (methodName : String) : JSVal :=
  if hasMethod methodName then .fn methodName else .undefined

/-- The base class method `addEventListeners(evt)`: for each descriptor
in order, registers `evt[i].trim().toLowerCase()` with the handler
`this['on' + evt[i].trim()]` through `on` (so a missing handler method
falls back to the substituted no-op). -/
def addEventListeners (hasMethod : String → Bool) (regs : List (String × JSVal)) :
    List String → List (String × JSVal)
  | [] => regs
  | e :: rest =>
      addEventListeners hasMethod
        (ngnOn regs (jsToLower (jsTrim e)) (lookupMethod hasMethod ("on" ++ jsTrim e)))
        rest

/-! ### The extension protocol (spec-modelled)

The `extend` machinery lives in `Class.js` (`require('./Class')`),
which is not under src/; only its two callers are visible. The spec
describes the protocol: a derived type's constructor invokes the base
type's construction logic exactly once, with the same configuration
argument, before running its own field setup, for arbitrarily deep
chains. Both visible constructors follow it literally
(`X.super.constructor.call(this, config)` as their first statement). -/

/-- A step observed while a constructor chain runs: one type's own
construction logic running with its configuration argument, or the
creation of the instance's private event channel (the base class's
`_emitter`, a fresh `events.EventEmitter`). -/
inductive CtorStep : Type where
  | ctorRun : String → JSVal → CtorStep
  | channelCreated : CtorStep

/-- Modelled from the spec: a type participating in an extension chain,
reduced to its name and the steps its own construction logic performs
(everything it does after the mandatory base-constructor call). -/
structure TypeDef : Type where
  name : String
  ownSteps : JSVal → List CtorStep

/-- Modelled from the spec: running the constructor of the leaf of an
extension chain, the chain listed leaf first (each type followed by its
ancestors). Mirrors the visible pattern: the super constructor is
called with the same `config` first, then the type's own steps run. -/
def runCtorChain : List TypeDef → JSVal → List CtorStep
  | [], _ => []
  | t :: ancestors, config => runCtorChain ancestors config ++ t.ownSteps config

/-- Modelled from the spec: the root `Class` type of the missing
`Class.js`; its own construction logic is opaque here, one marker step. -/
def classRootDef : TypeDef :=
  ⟨"Class", fun config => [.ctorRun "Class" config]⟩

/-- The base class of src/unnamed/part_000 as a chain member: after its
super call it installs the private `_emitter` (the event channel) and
configures it — its own steps are its marker followed by the channel
creation. -/
def ngnBaseDef : TypeDef :=
  ⟨"NGN.Base", fun config => [.ctorRun "NGN.Base" config, .channelCreated]⟩

/-- `NGN.user.Login` as a chain member: after its super call it defines
its own properties — one marker step. -/
def loginDef : TypeDef :=
  ⟨"Login", fun config => [.ctorRun "Login" config]⟩

/-- The concrete visible chain, leaf first: Login extends NGN.Base
extends Class. -/
def loginChain : List TypeDef :=
  [loginDef, ngnBaseDef, classRootDef]

/-! ### Concrete states and payloads used in the claim theorems -/

/-- The provider-to-code table as documented: the expected short code
for each known provider name. -/
def providerCodeTable : List (String × String) :=
  [("github", "gh"), ("facebook", "fb"), ("linkedin", "li"),
   ("twitter", "tw"), ("google", "gg"), ("openid", "oi"),
   ("yahoo", "yh"), ("dropbox", "db"), ("email", "eml")]

/-- A constructed Login state whose open `request` slot has been given
a payload resolving the provider to `facebook` (the only way any state
can satisfy the provider getter, which reads the never-defined
`request` property). -/
def stFb : LoginState :=
  { _request := .obj [], _data := .null, _id := .null,
    _accesstoken := .null, _accessToken := .undefined, _modified := false,
    _oauthprovider := .undefined,
    request := .obj [("user", .obj [("type", .str "facebook")])],
    bus := .undefined }

/-- A constructed Login state whose open `request` slot resolves the
provider to `email`; `bus` is `undefined`, as in every state the
repository's code produces. -/
def stEmail : LoginState :=
  { _request := .obj [], _data := .null, _id := .null,
    _accesstoken := .null, _accessToken := .undefined, _modified := false,
    _oauthprovider := .undefined,
    request := .obj [("user", .obj [("type", .str "email")])],
    bus := .undefined }

/-- The inbound request of the extraction scenario: `req.user` is
an authenticated-user structure with a `facebook` provider key, id
`u1` and access token `tok`. -/
def reqC2 : JSVal :=
  .obj [("user", .obj [("facebook", .obj []), ("id", .str "u1"),
                       ("accessToken", .str "tok")])]

/-! ### Claim theorems -/

/-- Monadic reduction helper: binding a successful `Except` value just
applies the continuation. -/
theorem ok_bind {α β : Type} (a : α) (f : α → Except JSErr β) :
    (Except.ok a >>= f) = f a :=
  rfl

/-- C1: constructing a Login with an identity id but no payload does
not behave as claimed — evaluating the code shows that reading the
provider getter raises a `TypeError` (it dereferences the never-defined
`request` property; no `InvalidAttribute` event is reported) and that
the `ID` attribute reads back as `null`, because the constructor never
stores `config.identityId`. -/
theorem c1_construct_no_payload :
    ∃ st, loginCtor (.obj [("identityId", .str "12345")]) = .ok st
      ∧ oauthproviderGet st = .error (.typeError "Cannot read property user of undefined")
      ∧ idGet st = .null :=
  ⟨_, rfl, rfl, rfl⟩

/-- C2: evaluating `processHttpRequest` on a payload whose
authenticated-user structure carries a `facebook` key, id `u1` and
token `tok` shows the divergence from the claim: the id assignment is
silently dropped (`ID` still reads `null`), the raw structure and the
token are cached in the private slots, the derived provider slot holds
an uncalled function value, and all three getters — provider name,
provider code and access token — raise a `TypeError` instead of
returning `facebook`, `fb` and `tok`. -/
theorem c2_extract_getters_throw :
    ∃ st0 st, loginCtor (.obj []) = .ok st0
      ∧ processHttpRequest st0 reqC2 = .ok st
      ∧ idGet st = .null
      ∧ st._data = .obj [("facebook", .obj []), ("id", .str "u1"),
                         ("accessToken", .str "tok")]
      ∧ st._accesstoken = .str "tok"
      ∧ st._oauthprovider = .fn "providerScan"
      ∧ oauthproviderGet st = .error (.typeError "Cannot read property user of undefined")
      ∧ oauthGet st = .error (.typeError "Cannot read property user of undefined")
      ∧ accesstokenGet st = .error (.typeError "Cannot read property user of undefined") :=
  ⟨_, _, rfl, rfl, rfl, rfl, rfl, rfl, rfl, rfl, rfl⟩

/-- C3: evaluating the code on a freshly constructed instance — whose
provider is unset, since the constructor never defines the `request`
property the provider getter reads — shows the divergence from the
claim: reading the `oauth` (providerCode) getter raises a `TypeError`
instead of returning the explicit no-code result, because it first
evaluates `this.oauthprovider`, which dereferences the undefined
`this.request`. The switch table itself does map the known names to
their documented codes (`github` to `gh`, `facebook` to `fb` here) and
defaults every other string (`webauthn` here) and non-string value to
`null`, but the getter only reaches it when a provider string is
available. -/
theorem c3_unset_provider_throws :
    ∃ st, loginCtor (.obj []) = .ok st
      ∧ oauthGet st = .error (.typeError "Cannot read property user of undefined")
      ∧ oauthSwitch (.str "github") = .str "gh"
      ∧ oauthSwitch (.str "facebook") = .str "fb"
      ∧ oauthSwitch (.str "webauthn") = .null
      ∧ oauthSwitch .null = .null :=
  ⟨_, rfl, rfl, rfl, rfl, rfl, rfl⟩

/-- C4: evaluating the code on a state whose provider resolves to
`email` shows the divergence from the claim: the read of the
`accesstoken` getter raises a `TypeError` instead of returning `null`
with a warn event, because the `email` branch emits through `this.bus`
and no `bus` property exists anywhere in the class chain. -/
theorem c4_email_token_read_throws :
    oauthproviderGet stEmail = .ok (.str "email")
    ∧ accesstokenGet stEmail = .error (.typeError "Cannot read property emit of undefined") :=
  ⟨rfl, rfl⟩

/-- C5: evaluating `authenticate()` on a freshly constructed instance
with no attached and no supplied payload shows the divergence from the
claim: the call returns with the state unchanged and with no event at
all — the no-payload guard is unreachable because the constructor
defaults the attached `_request` to an empty object, which is not
loosely equal to `null`. -/
theorem c5_authenticate_silent :
    ∃ st, loginCtor (.obj []) = .ok st
      ∧ authenticate st .undefined = .ok (st, []) :=
  ⟨_, rfl, rfl⟩

/-- C6: every attempt to assign the `modified` property runs the
rejected-write branch: the state — in particular the private
`_modified` flag — is unchanged, and exactly one `error` event whose
payload is typed `InvalidSet` is emitted on the instance's own
channel. -/
theorem c6_modified_setter (st : LoginState) (v : JSVal) :
    (modifiedSet st v).1 = st
    ∧ ((modifiedSet st v).1)._modified = st._modified
    ∧ (modifiedSet st v).2 = [ReportAction.localEmit "error" invalidSetPayload]
    ∧ getProp invalidSetPayload "type" = .ok (.str "InvalidSet") :=
  ⟨rfl, rfl, rfl, rfl⟩

/-- C7: for every event name and metadata, `fireEvent` produces the
local emit of the base class first, followed by a forward that is the
mechanic send of the same name and metadata exactly when the
process-wide monitor is attached, and empty otherwise. -/
theorem c7_fireEvent_order (attached : Bool) (n : String) (md : JSVal) :
    ∃ fwd, fireEvent attached n md = ngnEmit n md ++ fwd
      ∧ (attached = true → fwd = [ReportAction.mechanicSend n md])
      ∧ (attached = false → fwd = []) := by
  refine ⟨if attached then [ReportAction.mechanicSend n md] else [], rfl, ?_, ?_⟩
  · intro h
    simp [h]
  · intro h
    simp [h]

/-- Witness for C7 at a concrete input: an attached monitor, the event
name `error` and `null` metadata. -/
theorem c7_fireEvent_witness :
    ∃ fwd, fireEvent true "error" JSVal.null = ngnEmit "error" JSVal.null ++ fwd
      ∧ (true = true → fwd = [ReportAction.mechanicSend "error" JSVal.null])
      ∧ (true = false → fwd = []) :=
  c7_fireEvent_order true "error" JSVal.null

/-- C8 counterexample: with no matching handler method on the instance,
processing the single descriptor `Foo` does not leave the registration
list untouched — the event name `foo` is bound to the substituted
no-op handler, so the descriptor is bound after all. -/
theorem c8_counterexample :
    addEventListeners (fun _ => false) [] ["Foo"] = [("foo", emptyFn)]
    ∧ addEventListeners (fun _ => false) [] ["Foo"] ≠ [] :=
  ⟨rfl, fun h => List.noConfusion h⟩

/-- C8 as amended: `addEventListeners` registers each descriptor, in
order, under its trimmed and lowercased name; the handler is the
instance method named by `on` followed by the trimmed descriptor when
such a method exists, and otherwise the substituted no-op handler —
the registration itself always happens and no error is raised. -/
theorem c8_addEventListeners_binds (hasMethod : String → Bool)
    (regs : List (String × JSVal)) (evts : List String) :
    addEventListeners hasMethod regs evts =
      regs ++ evts.map (fun e =>
        (jsToLower (jsTrim e), jsOr (lookupMethod hasMethod ("on" ++ jsTrim e)) emptyFn)) := by
  induction evts generalizing regs with
  | nil => simp [addEventListeners]
  | cons e rest ih =>
      simp [addEventListeners, ngnOn, ih]

/-- Helper for C9: the constructor of the leaf of an extension chain
performs exactly the chain's own-steps blocks, base first, leaf last,
all with the same configuration argument. -/
theorem runCtorChain_eq_join (chain : List TypeDef) (config : JSVal) :
    runCtorChain chain config =
      (chain.reverse.map (fun t => t.ownSteps config)).flatten := by
  induction chain with
  | nil => rfl
  | cons t rest ih =>
      simp [runCtorChain, ih]

/-- C9: constructing the leaf of any extension chain runs each
ancestor's own construction logic exactly once, in base-to-derived
order and with the same configuration argument, before the leaf's own
steps (the trace is the concatenation of the own-steps blocks of the
reversed chain); on the visible chain Class → NGN.Base → Login the
private event channel is created exactly once, after the base's chain
call and before Login's own construction logic. -/
theorem c9_ctor_chain (chain : List TypeDef) (config : JSVal) :
    runCtorChain chain config =
      (chain.reverse.map (fun t => t.ownSteps config)).flatten
    ∧ runCtorChain loginChain config =
        [CtorStep.ctorRun "Class" config, CtorStep.ctorRun "NGN.Base" config,
         CtorStep.channelCreated, CtorStep.ctorRun "Login" config]
    ∧ (runCtorChain loginChain config).countP
        (fun s => match s with | CtorStep.channelCreated => true | _ => false) = 1 := by
  refine ⟨runCtorChain_eq_join chain config, rfl, rfl⟩

/-- C10: the access-token set-then-get round trip holds on every state
whose provider getter resolves to a known provider other than `email`:
the setter stores the value unconditionally in the `_accessToken` slot,
and the getter then returns exactly that value (with no event emitted)
for any non-empty string. -/
theorem c10_token_roundtrip (st : LoginState) (p v : String)
    (hp : oauthproviderGet st = .ok (.str p))
    (_hknown : p ∈ knownProviders) (hemail : p ≠ "email") (hv : v ≠ "") :
    (accesstokenSet st (.str v))._accessToken = .str v
    ∧ accesstokenGet (accesstokenSet st (.str v)) = .ok (.str v, []) := by
  refine ⟨rfl, ?_⟩
  have hp2 : oauthproviderGet (accesstokenSet st (.str v)) = .ok (.str p) := hp
  have hb : looseEqString (.str p) "email" = false := by
    simp [looseEqString, hemail]
  unfold accesstokenGet
  rw [hp2, ok_bind]
  simp only [looseEqNull, Bool.false_eq_true, if_false, ok_bind, hb, accesstokenSet]
  simp [jsOr, truthy, hv]

/-- Witness for C10 at concrete inputs: the state whose provider
resolves to `facebook`, and the token value `tok`. -/
theorem c10_token_roundtrip_witness :
    (accesstokenSet stFb (.str "tok"))._accessToken = .str "tok"
    ∧ accesstokenGet (accesstokenSet stFb (.str "tok")) = .ok (.str "tok", []) :=
  c10_token_roundtrip stFb "facebook" "tok" rfl (by decide) (by decide) (by decide)

end NGNSpec
